import Mathlib

/-!
Verification of the StyleAgent style-profile engine (`src/style_analyzer.py`).

Python strings are modelled as `List Char` (one entry per code point, matching
Python's `len`/indexing).  Python floats are modelled as exact rationals `ℚ`;
`math.sqrt` is modelled by the computable integer-square-root based `Rat.sqrt`
(no claim below depends on the numeric value of a square root).  Python's
`re` usage in the analyzer is limited to alternations of literals, single-char
classes, bounded/unbounded greedy class repetitions, `\b`, and MULTILINE `^`/`$`;
it is modelled by the token matcher below with greedy matching plus
backtracking, and left-to-right non-overlapping scanning for
`findall`/`sub`/`search`, as in CPython's `re`.
-/

abbrev Str := List Char

def str (s : String) : Str := s.data

/-- Python `\w` (`re.UNICODE`) restricted to the character ranges this corpus
uses: ASCII alphanumerics, underscore, and Hangul syllables (U+AC00–U+D7A3). -/
def isWordChar (c : Char) : Bool :=
  c.isAlphanum || c == '_' || (0xAC00 ≤ c.toNat && c.toNat ≤ 0xD7A3)

def isHangulChar (c : Char) : Bool :=
  0xAC00 ≤ c.toNat && c.toNat ≤ 0xD7A3

/-- Python `\s` / `str.strip()` whitespace (ASCII portion). -/
def isPySpace (c : Char) : Bool :=
  c == ' ' || c == '\t' || c == '\n' || c == '\r' || c == '\x0b' || c == '\x0c'

/-- Python `str.lower()` on the ASCII range (Hangul is case-less). -/
def lowerStr (s : Str) : Str := s.map Char.toLower

/-- Regex tokens covering exactly the constructs `style_analyzer.py` uses. -/
inductive RTok where
  | lit : Char → RTok
  | litCI : Char → RTok
  | cls : (Char → Bool) → RTok
  | rep : (Char → Bool) → Nat → Option Nat → RTok
  | bnd : RTok
  | bol : RTok
  | eol : RTok

def charAt (s : Str) (p : Nat) : Option Char := s.get? p

def wordAt (s : Str) (p : Nat) : Bool :=
  match charAt s p with
  | some c => isWordChar c
  | none => false

/-- Python `\b`: positions where exactly one neighbour is a word char. -/
def atBoundary (s : Str) (p : Nat) : Bool :=
  let prev := match p with
    | 0 => false
    | q + 1 => wordAt s q
  prev != wordAt s p

/-- MULTILINE `^`. -/
def atBol (s : Str) (p : Nat) : Bool :=
  match p with
  | 0 => true
  | q + 1 => charAt s q == some '\n'

/-- MULTILINE `$`. -/
def atEol (s : Str) (p : Nat) : Bool :=
  p == s.length || charAt s p == some '\n'

def runLenAux (f : Char → Bool) : List Char → Nat
  | [] => 0
  | c :: cs => if f c then runLenAux f cs + 1 else 0

/-- Length of the maximal run of `f`-characters starting at `p`. -/
def runLenFrom (f : Char → Bool) (s : Str) (p : Nat) : Nat :=
  runLenAux f (s.drop p)

/-- Greedy backtracking over a repetition count: try `base + k`, `base + k - 1`,
…, `base`, returning the first success. -/
def tryDown (cont : Nat → Option Nat) (base : Nat) : Nat → Option Nat
  | 0 => cont base
  | k + 1 =>
    match cont (base + (k + 1)) with
    | some e => some e
    | none => tryDown cont base k

/-- Match a token sequence at position `p`, returning the end position of the
first match in backtracking order (greedy repetitions, as in `re`).  `fuel`
bounds recursion over the token list; callers pass `toks.length + 1`. -/
def matchToks (s : Str) : Nat → List RTok → Nat → Option Nat
  | 0, _, _ => none
  | _ + 1, [], p => some p
  | f + 1, RTok.lit c :: ts, p =>
    if charAt s p == some c then matchToks s f ts (p + 1) else none
  | f + 1, RTok.litCI c :: ts, p =>
    match charAt s p with
    | some d => if d.toLower == c.toLower then matchToks s f ts (p + 1) else none
    | none => none
  | f + 1, RTok.cls g :: ts, p =>
    match charAt s p with
    | some d => if g d then matchToks s f ts (p + 1) else none
    | none => none
  | f + 1, RTok.rep g lo cap :: ts, p =>
    let hi := match cap with
      | none => runLenFrom g s p
      | some c => min c (runLenFrom g s p)
    if lo ≤ hi then tryDown (fun q => matchToks s f ts q) (p + lo) (hi - lo) else none
  | f + 1, RTok.bnd :: ts, p =>
    if atBoundary s p then matchToks s f ts p else none
  | f + 1, RTok.bol :: ts, p =>
    if atBol s p then matchToks s f ts p else none
  | f + 1, RTok.eol :: ts, p =>
    if atEol s p then matchToks s f ts p else none

/-- Try a pattern alternation at one position, alternatives in order. -/
def matchAlts (alts : List (List RTok)) (s : Str) (p : Nat) : Option Nat :=
  match alts with
  | [] => none
  | a :: rest =>
    match matchToks s (a.length + 1) a p with
    | some e => some e
    | none => matchAlts rest s p

def searchAux (alts : List (List RTok)) (s : Str) : Nat → Nat → Bool
  | 0, _ => false
  | f + 1, p =>
    if (matchAlts alts s p).isSome then true else searchAux alts s f (p + 1)

/-- `bool(re.search(pat, s))`. -/
def reSearch (alts : List (List RTok)) (s : Str) : Bool :=
  searchAux alts s (s.length + 1) 0

def countAux (alts : List (List RTok)) (s : Str) : Nat → Nat → Nat
  | 0, _ => 0
  | f + 1, p =>
    match matchAlts alts s p with
    | some e => if p < e then 1 + countAux alts s f e else 1 + countAux alts s f (p + 1)
    | none => countAux alts s f (p + 1)

/-- `len(re.findall(pat, s))`: non-overlapping leftmost matches. -/
def countMatches (alts : List (List RTok)) (s : Str) : Nat :=
  countAux alts s (s.length + 1) 0

def subAux (alts : List (List RTok)) (rep : Str) (s : Str) : Nat → Nat → Str
  | 0, _ => []
  | f + 1, p =>
    match matchAlts alts s p with
    | some e =>
      if p < e then rep ++ subAux alts rep s f e
      else
        match charAt s p with
        | some c => c :: subAux alts rep s f (p + 1)
        | none => []
    | none =>
      match charAt s p with
      | some c => c :: subAux alts rep s f (p + 1)
      | none => []

/-- `re.sub(pat, rep, s)` for the patterns used here (no empty matches). -/
def reSub (alts : List (List RTok)) (rep : Str) (s : Str) : Str :=
  subAux alts rep s (s.length + 1) 0

def lits (w : Str) : List RTok := w.map RTok.lit

def litsCI (w : Str) : List RTok := w.map RTok.litCI

/-- Wrap a token sequence in `\b … \b`. -/
def wbT (tks : List RTok) : List RTok := RTok.bnd :: tks ++ [RTok.bnd]

/-- Python `str.strip()`. -/
def pstrip (s : Str) : Str :=
  ((s.dropWhile isPySpace).reverse.dropWhile isPySpace).reverse

/-- `sep.join(parts)`. -/
def joinSep (sep : Str) (parts : List Str) : Str := List.intercalate sep parts

def splitOnAux (sep : Str) : Nat → Str → Str → List Str
  | 0, _, cur => [cur.reverse]
  | f + 1, s, cur =>
    match s with
    | [] => [cur.reverse]
    | c :: rest =>
      if sep.isPrefixOf (c :: rest) then
        cur.reverse :: splitOnAux sep f ((c :: rest).drop sep.length) []
      else
        splitOnAux sep f rest (c :: cur)

/-- Python `s.split(sep)` with a non-empty literal separator. -/
def splitOnStr (sep s : Str) : List Str := splitOnAux sep (s.length + 1) s []

def pySplitWSAux : Nat → Str → List Str
  | 0, _ => []
  | _ + 1, [] => []
  | f + 1, c :: cs =>
    if isPySpace c then pySplitWSAux f cs
    else
      (c :: cs.takeWhile (fun d => !isPySpace d)) ::
        pySplitWSAux f (cs.dropWhile (fun d => !isPySpace d))

/-- Python `s.split()` (no argument): whitespace runs as separators, empties
dropped. -/
def pySplitWS (s : Str) : List Str := pySplitWSAux (s.length + 1) s

def wordRunsAux : Nat → Str → List Str
  | 0, _ => []
  | _ + 1, [] => []
  | f + 1, c :: cs =>
    if isWordChar c then
      (c :: cs.takeWhile isWordChar) :: wordRunsAux f (cs.dropWhile isWordChar)
    else wordRunsAux f cs

/-- Maximal `\w`-runs of a string. -/
def wordRuns (s : Str) : List Str := wordRunsAux (s.length + 1) s

def isLatinOrHangul (c : Char) : Bool := c.isAlpha || isHangulChar c

/-- `re.findall(r'\b[a-zA-Z가-힣]+\b', s)`: since the class is a subset of `\w`,
the matches are exactly the maximal word runs made up entirely of the class. -/
def wordTokens (s : Str) : List Str :=
  (wordRuns s).filter (fun w => w.all isLatinOrHangul)

/-- `x in y` for strings. -/
def isSubstr (pat : Str) : Str → Bool
  | [] => pat.isEmpty
  | c :: rest => pat.isPrefixOf (c :: rest) || isSubstr pat rest

/- Counter utilities.  A `collections.Counter` / insertion-ordered dict is an
association list whose key order is first-occurrence order. -/

def bump {α : Type} [DecidableEq α] : List (α × Nat) → α → List (α × Nat)
  | [], x => [(x, 1)]
  | (y, c) :: rest, x =>
    if y = x then (y, c + 1) :: rest else (y, c) :: bump rest x

/-- `collections.Counter(xs)`. -/
def buildCounter {α : Type} [DecidableEq α] (xs : List α) : List (α × Nat) :=
  xs.foldl bump []

def insDesc {α : Type} (p : α × Nat) : List (α × Nat) → List (α × Nat)
  | [] => [p]
  | q :: qs => if q.2 > p.2 then q :: insDesc p qs else p :: q :: qs

/-- `sorted(items, key=count, reverse=True)`: stable descending sort, ties kept
in input (first-occurrence) order. -/
def sortDesc {α : Type} : List (α × Nat) → List (α × Nat)
  | [] => []
  | p :: ps => insDesc p (sortDesc ps)

/-- `Counter.most_common(n)`. -/
def mostCommon {α : Type} (n : Nat) (l : List (α × Nat)) : List (α × Nat) :=
  (sortDesc l).take n

/-- `d[x] = d.get(x, 0) + c` on an insertion-ordered dict. -/
def addCount {α : Type} [DecidableEq α] : List (α × Nat) → α × Nat → List (α × Nat)
  | [], x => [x]
  | (y, c) :: rest, x =>
    if y = x.1 then (y, c + x.2) :: rest else (y, c) :: addCount rest x

def addAll {α : Type} [DecidableEq α] (l : List (α × Nat)) (xs : List (α × Nat)) :
    List (α × Nat) :=
  xs.foldl addCount l

/-- `d[x] = c` (assignment) on an insertion-ordered dict. -/
def setCount {α : Type} [DecidableEq α] : List (α × Nat) → α → Nat → List (α × Nat)
  | [], x, v => [(x, v)]
  | (y, c) :: rest, x, v =>
    if y = x then (y, v) :: rest else (y, c) :: setCount rest x v

/-- `d.get(x)` on an association list. -/
def lookupC {α : Type} [DecidableEq α] : List (α × Nat) → α → Option Nat
  | [], _ => none
  | (y, c) :: rest, x => if y = x then some c else lookupC rest x

def keysOf {α : Type} (l : List (α × Nat)) : List α := l.map (·.1)

/-- `{k: d1.get(k,0)+d2.get(k,0) for k in set(d1)|set(d2)}`.  CPython iterates
the key set in an unspecified order; we fix the order to d1's keys followed by
d2's fresh keys.  All properties claimed of these dicts are value (lookup)
properties, independent of key order. -/
def unionSum {α : Type} [DecidableEq α] (d1 d2 : List (α × Nat)) : List (α × Nat) :=
  (keysOf d1 ++ (keysOf d2).filter (fun k => !(keysOf d1).contains k)).map
    (fun k => (k, (lookupC d1 k).getD 0 + (lookupC d2 k).getD 0))

/-- `merge_pattern_dicts` inside `_merge_patterns`: sum over the key union,
keeping only positive counts. -/
def merge_pattern_dicts {α : Type} [DecidableEq α] (d1 d2 : List (α × Nat)) :
    List (α × Nat) :=
  (unionSum d1 d2).filter (fun p => decide (0 < p.2))

/-- `merge_freq_lists` / `merge_word_lists`: union of `(item, count)` pairs with
summed counts, sorted descending (stable on the accumulated insertion order),
truncated to `n`. -/
def mergeFreqLists {α : Type} [DecidableEq α] (n : Nat) (l1 l2 : List (α × Nat)) :
    List (α × Nat) :=
  (sortDesc (addAll (addAll [] l1) l2)).take n

/- Fixed lexicons from `StyleAnalyzer` (class attributes). -/

def KOREAN_TRANSITIONS : List (Str × List Str) :=
  [(str "additive", [str "또한", str "그리고", str "더불어", str "아울러", str "게다가",
      str "뿐만 아니라", str "마찬가지로"]),
   (str "contrast", [str "하지만", str "그러나", str "반면", str "반대로", str "그렇지만",
      str "다만", str "오히려"]),
   (str "causal", [str "따라서", str "그러므로", str "때문에", str "그래서",
      str "결과적으로", str "이로 인해"]),
   (str "sequential", [str "먼저", str "다음으로", str "그 다음", str "마지막으로",
      str "첫째", str "둘째", str "셋째"]),
   (str "exemplifying", [str "예를 들어", str "예컨대", str "구체적으로", str "특히",
      str "가령"]),
   (str "concluding", [str "결론적으로", str "요약하면", str "정리하면", str "결국",
      str "마무리하자면"])]

def ENGLISH_TRANSITIONS : List (Str × List Str) :=
  [(str "additive", [str "also", str "additionally", str "furthermore", str "moreover",
      str "in addition", str "as well"]),
   (str "contrast", [str "however", str "but", str "nevertheless", str "on the other hand",
      str "in contrast", str "yet"]),
   (str "causal", [str "therefore", str "thus", str "consequently", str "as a result",
      str "hence", str "so"]),
   (str "sequential", [str "first", str "second", str "third", str "next", str "then",
      str "finally", str "lastly"]),
   (str "exemplifying", [str "for example", str "for instance", str "specifically",
      str "such as", str "including"]),
   (str "concluding", [str "in conclusion", str "to summarize", str "in summary",
      str "ultimately", str "overall"])]

def ENGLISH_STOPWORDS : List Str :=
  [str "the", str "a", str "an", str "and", str "or", str "but", str "in", str "on",
   str "at", str "to", str "for", str "of", str "with", str "by", str "from", str "as",
   str "is", str "was", str "are", str "were", str "been", str "be", str "have",
   str "has", str "had", str "do", str "does", str "did", str "will", str "would",
   str "could", str "should", str "may", str "might", str "must", str "that",
   str "this", str "these", str "those", str "it", str "its", str "you", str "your",
   str "we", str "our", str "they", str "their", str "he", str "she", str "his",
   str "her", str "i", str "my", str "me", str "not", str "no", str "yes", str "can",
   str "if", str "when", str "where", str "what", str "which", str "who", str "how",
   str "why", str "all", str "each", str "more", str "some", str "any", str "there",
   str "here", str "about", str "into", str "through", str "during", str "before",
   str "after", str "above", str "below", str "between", str "under", str "again",
   str "further", str "then", str "once"]

def KOREAN_PARTICLES : List Str :=
  [str "은", str "는", str "이", str "가", str "을", str "를", str "의", str "에",
   str "에서", str "로", str "으로", str "와", str "과", str "도", str "만",
   str "부터", str "까지", str "보다", str "처럼", str "같이", str "하고",
   str "이나", str "거나"]

/- `NOISE_PATTERNS`, each applied by `re.sub(p, '', text, IGNORECASE|MULTILINE)`. -/

def noisePat1 : List RTok :=
  litsCI (str "citeturn") ++ [RTok.rep Char.isDigit 1 none] ++
    litsCI (str "search") ++ [RTok.rep Char.isDigit 1 none]

def noisePat2 : List RTok :=
  litsCI (str "turn") ++ [RTok.rep Char.isDigit 1 none] ++
    litsCI (str "search") ++ [RTok.rep Char.isDigit 1 none]

def noisePat3 : List RTok := litsCI (str "[citation needed]")

def noisePat4 : List RTok :=
  [RTok.lit '【', RTok.rep Char.isDigit 1 none, RTok.lit '†'] ++
    litsCI (str "source") ++ [RTok.lit '】']

def noisePat5 : List RTok :=
  litsCI (str "entity") ++ [RTok.rep isPySpace 0 none, RTok.rep isWordChar 1 none]

def noisePat6 : List RTok :=
  [RTok.bol, RTok.rep isPySpace 0 none] ++ lits (str "---") ++
    [RTok.rep isPySpace 0 none, RTok.eol]

/- The `StyleProfile` data model: the nested dict produced by `analyze` /
`merge_profiles`.  Sub-dicts that the code tests for emptiness (`if not d`) are
`Option`s, with `none` standing for the empty/absent dict; record fields model
the fixed key sets that `analyze` and `merge_profiles` always produce. -/

structure Metadata where
  total_documents : Nat
  total_characters : Nat
deriving DecidableEq

structure LengthDistribution where
  short_pct : ℚ
  medium_pct : ℚ
  long_pct : ℚ
deriving DecidableEq

structure SentenceStats where
  avg_length_chars : ℚ
  std_dev_length : ℚ
  avg_word_count : ℚ
  min_length : Nat
  max_length : Nat
  total_sentences : Nat
  length_distribution : LengthDistribution
deriving DecidableEq

structure ParagraphStats where
  avg_length_chars : ℚ
  avg_sentences_per_para : ℚ
  total_paragraphs : Nat
  single_sentence_para_pct : ℚ
deriving DecidableEq

structure Vocabulary where
  total_meaningful_words : Nat
  unique_words : Nat
  vocabulary_richness : ℚ
  top_korean_words : List (Str × Nat)
  top_english_words : List (Str × Nat)
deriving DecidableEq

/-- Opening-pattern, closing-pattern, and merged pattern dicts share this shape;
`none` marks a key that is absent from the Python dict (`_extract_opening_patterns`
produces the first four keys, `_extract_closing_patterns` the last four, and
`_merge_patterns` always emits the first four). -/
structure PatternStats where
  common_first_words : Option (List (Str × Nat))
  common_first_phrases : Option (List (Str × Nat))
  greeting_patterns : Option (List (Str × Nat))
  sample_openings : Option (List Str)
  common_last_words : Option (List (Str × Nat))
  common_last_phrases : Option (List (Str × Nat))
  signoff_patterns : Option (List (Str × Nat))
  sample_closings : Option (List Str)
deriving DecidableEq

structure TransitionAnalysis where
  korean_by_category : List (Str × Nat)
  english_by_category : List (Str × Nat)
  top_korean_transitions : List (Str × Nat)
  top_english_transitions : List (Str × Nat)
deriving DecidableEq

structure ToneAnalysis where
  korean_formality : List (Str × Nat)
  english_formality : List (Str × Nat)
  primary_korean_tone : Str
  primary_english_tone : Str
  emotional_indicators : List (Str × Nat)
deriving DecidableEq

structure StructureFlags where
  uses_bullet_points : Bool
  uses_numbering : Bool
  uses_headers : Bool
  uses_bold : Bool
  uses_code_blocks : Bool
  uses_tables : Bool
deriving DecidableEq

structure StructureCounts where
  bullet_count : Nat
  number_count : Nat
  header_count : Nat
  question_count : Nat
deriving DecidableEq

structure StructuralPatterns where
  patterns : StructureFlags
  counts : StructureCounts
deriving DecidableEq

structure SignaturePhrases where
  signature_bigrams : List (Str × Nat)
  signature_trigrams : List (Str × Nat)
deriving DecidableEq

structure StyleProfile where
  metadata : Metadata
  sentence_stats : Option SentenceStats
  paragraph_stats : Option ParagraphStats
  vocabulary : Option Vocabulary
  opening_patterns : Option PatternStats
  closing_patterns : Option PatternStats
  transition_analysis : Option TransitionAnalysis
  tone_analysis : Option ToneAnalysis
  structural_patterns : Option StructuralPatterns
  signature_phrases : Option SignaturePhrases
  sample_sentences : List Str
deriving DecidableEq

/-- The empty/absent profile (`{}`): metadata keys default to 0 on read. -/
def emptyProfile : StyleProfile :=
  ⟨⟨0, 0⟩, none, none, none, none, none, none, none, none, none, []⟩

/- The analysis pipeline (`StyleAnalyzer` methods, in source order). -/

/-- `_clean_text`: strip the six noise patterns in order, collapse 3+ newlines
to 2 and 2+ spaces to 1, then strip. -/
def clean_text (t : Str) : Str :=
  let c := reSub [noisePat1] [] t
  let c := reSub [noisePat2] [] c
  let c := reSub [noisePat3] [] c
  let c := reSub [noisePat4] [] c
  let c := reSub [noisePat5] [] c
  let c := reSub [noisePat6] [] c
  let c := reSub [[RTok.rep (fun d => d == '\n') 3 none]] (str "\n\n") c
  let c := reSub [[RTok.rep (fun d => d == ' ') 2 none]] (str " ") c
  pstrip c

def isSentEnd (c : Char) : Bool := c == '.' || c == '!' || c == '?' || c == '。'

def splitSentRawAux (s : Str) : Nat → Nat → Str → List Str
  | 0, _, cur => [cur]
  | f + 1, p, cur =>
    match charAt s p with
    | none => [cur]
    | some c =>
      match p, isPySpace c with
      | q + 1, true =>
        if (charAt s q).any isSentEnd then
          let k := runLenFrom isPySpace s (q + 1)
          cur :: splitSentRawAux s f (q + 1 + k) []
        else splitSentRawAux s f (p + 1) (cur ++ [c])
      | _, _ => splitSentRawAux s f (p + 1) (cur ++ [c])

/-- `re.split(r'(?<=[.!?。])\s+', text)`: cut at each maximal whitespace run
whose first character is directly preceded by a sentence-ending character. -/
def splitSentRaw (s : Str) : List Str := splitSentRawAux s (s.length + 1) 0 []

def isMarkupChar (c : Char) : Bool :=
  c == '-' || c == '#' || c == '*' || c.isDigit || isPySpace c

/-- Keep a stripped fragment iff `len(s) > 10` and it is not matched by
`^[-#*\d\s]+$`. -/
def keepSentence (s : Str) : Bool :=
  decide (10 < s.length) && !(s.all isMarkupChar)

/-- `_split_sentences`. -/
def split_sentences (t : Str) : List Str :=
  (splitSentRaw t).filterMap (fun s0 =>
    let s := pstrip s0
    if keepSentence s then some s else none)

/-- The paragraph list built inside `analyze`:
`[p.strip() for p in text.split("\n\n") if p.strip()]`. -/
def split_paragraphs (t : Str) : List Str :=
  (splitOnStr (str "\n\n") t).filterMap (fun p =>
    let q := pstrip p
    if q.isEmpty then none else some q)

/-- `_analyze_sentences`. -/
def analyze_sentences (sentences : List Str) : Option SentenceStats :=
  match sentences with
  | [] => none
  | s0 :: rest =>
    let lengths := (s0 :: rest).map List.length
    let wordCounts := (s0 :: rest).map (fun s => (pySplitWS s).length)
    let n : ℚ := (s0 :: rest).length
    let avgLen : ℚ := ((lengths.map (fun l => (l : ℚ))).sum) / n
    let variance : ℚ := ((lengths.map (fun l => ((l : ℚ) - avgLen) ^ 2)).sum) / n
    let short := lengths.countP (fun l => decide (l < 50))
    let medium := lengths.countP (fun l => decide (50 ≤ l) && decide (l < 150))
    let long := lengths.countP (fun l => decide (150 ≤ l))
    some
      { avg_length_chars := avgLen
        std_dev_length := Rat.sqrt variance
        avg_word_count := ((wordCounts.map (fun l => (l : ℚ))).sum) / n
        min_length := rest.foldl (fun a s => min a s.length) s0.length
        max_length := rest.foldl (fun a s => max a s.length) s0.length
        total_sentences := (s0 :: rest).length
        length_distribution :=
          { short_pct := (short : ℚ) / n * 100
            medium_pct := (medium : ℚ) / n * 100
            long_pct := (long : ℚ) / n * 100 } }

/-- `_analyze_paragraphs`. -/
def analyze_paragraphs (paragraphs : List Str) : Option ParagraphStats :=
  match paragraphs with
  | [] => none
  | p0 :: rest =>
    let lengths := (p0 :: rest).map List.length
    let sentCounts := (p0 :: rest).map (fun p => (split_sentences p).length)
    let n : ℚ := (p0 :: rest).length
    some
      { avg_length_chars := ((lengths.map (fun l => (l : ℚ))).sum) / n
        avg_sentences_per_para := ((sentCounts.map (fun l => (l : ℚ))).sum) / n
        total_paragraphs := (p0 :: rest).length
        single_sentence_para_pct :=
          ((sentCounts.countP (fun c => decide (c = 1)) : ℚ)) / n * 100 }

/-- A word survives `_analyze_vocabulary`'s filters. -/
def keepWord (w : Str) : Bool :=
  decide (1 < w.length) && !(ENGLISH_STOPWORDS.contains w) &&
    !(KOREAN_PARTICLES.contains w) &&
    !((str "turn").isPrefixOf w || (str "search").isPrefixOf w ||
      (str "cite").isPrefixOf w || (str "entity").isPrefixOf w)

/-- `_analyze_vocabulary` (on the cleaned texts). -/
def analyze_vocabulary (texts : List Str) : Option Vocabulary :=
  let combined := lowerStr (joinSep (str " ") texts)
  let words := wordTokens combined
  let meaningful := words.filter keepWord
  let wordFreq := buildCounter meaningful
  let total := meaningful.length
  let unique := wordFreq.length
  let topWords := mostCommon 50 wordFreq
  let koreanWords := topWords.filter (fun p => !p.1.isEmpty && p.1.all isHangulChar)
  let englishWords := topWords.filter (fun p => !p.1.isEmpty && p.1.all Char.isAlpha)
  some
    { total_meaningful_words := total
      unique_words := unique
      vocabulary_richness := if 0 < total then (unique : ℚ) / (total : ℚ) else 0
      top_korean_words := koreanWords.take 20
      top_english_words := englishWords.take 20 }

/-- The `openings` list inside `_extract_opening_patterns`: a paragraph whose
segmentation yields no sentence contributes nothing. -/
def openingsOf (paragraphs : List Str) : List Str :=
  paragraphs.foldl
    (fun acc p =>
      match split_sentences p with
      | [] => acc
      | s :: _ => acc ++ [s.take 100])
    []

/-- The `closings` list inside `_extract_closing_patterns`. -/
def closingsOf (paragraphs : List Str) : List Str :=
  paragraphs.foldl
    (fun acc p =>
      match (split_sentences p).getLast? with
      | none => acc
      | some lastS =>
        acc ++ [if 100 < lastS.length then lastS.drop (lastS.length - 100) else lastS])
    []

/- `_detect_greetings`: per text, each pattern's counter is incremented when the
text satisfies the pattern's condition; `안녕` is only counted when `안녕하세요`
is absent (the `elif`).  The per-pattern conditions are the named predicates. -/

def greetsHaseyo (t : Str) : Bool := isSubstr (str "안녕하세요") t

def greetsAnnyeong (t : Str) : Bool :=
  if isSubstr (str "안녕하세요") t then false else isSubstr (str "안녕") t

def greetsHello (t : Str) : Bool := isSubstr (str "hello") (lowerStr t)

/-- `re.match(r'^hi\b', t_lower)`. -/
def greetsHi (t : Str) : Bool :=
  (matchToks (lowerStr t) 4 [RTok.lit 'h', RTok.lit 'i', RTok.bnd] 0).isSome

def greetsDear (t : Str) : Bool := isSubstr (str "dear") (lowerStr t)

def greetsGoodMA (t : Str) : Bool :=
  isSubstr (str "good morning") (lowerStr t) || isSubstr (str "good afternoon") (lowerStr t)

def greetsThankYou (t : Str) : Bool := isSubstr (str "thank you") (lowerStr t)

def greetsGamsa (t : Str) : Bool := isSubstr (str "감사합니다") t

structure GreetCounts where
  cHaseyo : Nat
  cAnnyeong : Nat
  cHello : Nat
  cHi : Nat
  cDear : Nat
  cGoodMA : Nat
  cThankYou : Nat
  cGamsa : Nat
deriving DecidableEq

def greetStep (a : GreetCounts) (t : Str) : GreetCounts :=
  { cHaseyo := a.cHaseyo + (if greetsHaseyo t then 1 else 0)
    cAnnyeong := a.cAnnyeong + (if greetsAnnyeong t then 1 else 0)
    cHello := a.cHello + (if greetsHello t then 1 else 0)
    cHi := a.cHi + (if greetsHi t then 1 else 0)
    cDear := a.cDear + (if greetsDear t then 1 else 0)
    cGoodMA := a.cGoodMA + (if greetsGoodMA t then 1 else 0)
    cThankYou := a.cThankYou + (if greetsThankYou t then 1 else 0)
    cGamsa := a.cGamsa + (if greetsGamsa t then 1 else 0) }

/-- `_detect_greetings`: tally over the texts, then keep only positive counts
(keys in the patterns dict's insertion order). -/
def detect_greetings (texts : List Str) : List (Str × Nat) :=
  let a := texts.foldl greetStep ⟨0, 0, 0, 0, 0, 0, 0, 0⟩
  [(str "안녕하세요", a.cHaseyo), (str "안녕", a.cAnnyeong), (str "Hello", a.cHello),
   (str "Hi", a.cHi), (str "Dear", a.cDear), (str "Good morning/afternoon", a.cGoodMA),
   (str "Thank you", a.cThankYou), (str "감사합니다", a.cGamsa)].filter
    (fun p => decide (0 < p.2))

/- `_detect_signoffs`, analogously (`Best` only when `best regards` is absent
and the text is shorter than 50 characters). -/

def soBestRegards (t : Str) : Bool := isSubstr (str "best regards") (lowerStr t)

def soBest (t : Str) : Bool :=
  if isSubstr (str "best regards") (lowerStr t) then false
  else isSubstr (str "best") (lowerStr t) && decide (t.length < 50)

def soThanks (t : Str) : Bool := isSubstr (str "thanks") (lowerStr t)

def soThankYou (t : Str) : Bool := isSubstr (str "thank you") (lowerStr t)

def soSincerely (t : Str) : Bool := isSubstr (str "sincerely") (lowerStr t)

def soGamsa (t : Str) : Bool := isSubstr (str "감사합니다") t

def soButak (t : Str) : Bool := isSubstr (str "부탁드립니다") t

def soMalsseum (t : Str) : Bool :=
  isSubstr (str "말씀해 주세요") t || isSubstr (str "말씀해주세요") t

structure SignoffCounts where
  cBestRegards : Nat
  cBest : Nat
  cThanks : Nat
  cThankYou : Nat
  cSincerely : Nat
  cGamsa : Nat
  cButak : Nat
  cMalsseum : Nat
deriving DecidableEq

def signoffStep (a : SignoffCounts) (t : Str) : SignoffCounts :=
  { cBestRegards := a.cBestRegards + (if soBestRegards t then 1 else 0)
    cBest := a.cBest + (if soBest t then 1 else 0)
    cThanks := a.cThanks + (if soThanks t then 1 else 0)
    cThankYou := a.cThankYou + (if soThankYou t then 1 else 0)
    cSincerely := a.cSincerely + (if soSincerely t then 1 else 0)
    cGamsa := a.cGamsa + (if soGamsa t then 1 else 0)
    cButak := a.cButak + (if soButak t then 1 else 0)
    cMalsseum := a.cMalsseum + (if soMalsseum t then 1 else 0) }

/-- `_detect_signoffs`. -/
def detect_signoffs (texts : List Str) : List (Str × Nat) :=
  let a := texts.foldl signoffStep ⟨0, 0, 0, 0, 0, 0, 0, 0⟩
  [(str "Best regards", a.cBestRegards), (str "Best", a.cBest), (str "Thanks", a.cThanks),
   (str "Thank you", a.cThankYou), (str "Sincerely", a.cSincerely),
   (str "감사합니다", a.cGamsa), (str "부탁드립니다", a.cButak),
   (str "말씀해 주세요", a.cMalsseum)].filter (fun p => decide (0 < p.2))

/-- The `first_words`/`first_phrases` accumulation in
`_extract_opening_patterns`. -/
def firstWordsOf (openings : List Str) : List Str :=
  openings.filterMap (fun o => (pySplitWS o).head?)

def firstPhrasesOf (openings : List Str) : List Str :=
  openings.foldl
    (fun acc o =>
      let ws := pySplitWS o
      acc ++
        (if 2 ≤ ws.length then [joinSep (str " ") (ws.take 2)] else []) ++
        (if 3 ≤ ws.length then [joinSep (str " ") (ws.take 3)] else []))
    []

/-- `_extract_opening_patterns`. -/
def extract_opening_patterns (paragraphs : List Str) : Option PatternStats :=
  match paragraphs with
  | [] => none
  | _ =>
    let openings := openingsOf paragraphs
    some
      { common_first_words := some (mostCommon 15 (buildCounter (firstWordsOf openings)))
        common_first_phrases := some (mostCommon 15 (buildCounter (firstPhrasesOf openings)))
        greeting_patterns := some (detect_greetings openings)
        sample_openings := some (openings.take 10)
        common_last_words := none
        common_last_phrases := none
        signoff_patterns := none
        sample_closings := none }

def lastWordsOf (closings : List Str) : List Str :=
  closings.filterMap (fun c => (pySplitWS c).getLast?)

def lastPhrasesOf (closings : List Str) : List Str :=
  closings.foldl
    (fun acc c =>
      let ws := pySplitWS c
      acc ++
        (if 2 ≤ ws.length then [joinSep (str " ") (ws.drop (ws.length - 2))] else []) ++
        (if 3 ≤ ws.length then [joinSep (str " ") (ws.drop (ws.length - 3))] else []))
    []

/-- `_extract_closing_patterns`. -/
def extract_closing_patterns (paragraphs : List Str) : Option PatternStats :=
  match paragraphs with
  | [] => none
  | _ =>
    let closings := closingsOf paragraphs
    some
      { common_first_words := none
        common_first_phrases := none
        greeting_patterns := none
        sample_openings := none
        common_last_words := some (mostCommon 15 (buildCounter (lastWordsOf closings)))
        common_last_phrases := some (mostCommon 15 (buildCounter (lastPhrasesOf closings)))
        signoff_patterns := some (detect_signoffs closings)
        sample_closings := some (closings.take 10) }

def allKoreanTransitions : List Str := (KOREAN_TRANSITIONS.map (·.2)).flatten

def allEnglishTransitions : List Str := (ENGLISH_TRANSITIONS.map (·.2)).flatten

/-- `_analyze_transitions`.  Category counts use `\b…\b` (English additionally
IGNORECASE); the per-phrase Korean counter uses the bare phrase with no
boundaries, the English one keeps boundaries and IGNORECASE. -/
def analyze_transitions (texts : List Str) : TransitionAnalysis :=
  let combined := joinSep (str " ") texts
  let koreanUsage := KOREAN_TRANSITIONS.foldl
    (fun acc p =>
      setCount acc p.1 ((p.2.map (fun w => countMatches [wbT (lits w)] combined)).sum))
    []
  let englishUsage := ENGLISH_TRANSITIONS.foldl
    (fun acc p =>
      setCount acc p.1 ((p.2.map (fun w => countMatches [wbT (litsCI w)] combined)).sum))
    []
  let krSpecific := allKoreanTransitions.foldl
    (fun acc w => setCount acc w (countMatches [lits w] combined)) []
  let enSpecific := allEnglishTransitions.foldl
    (fun acc w => setCount acc w (countMatches [wbT (litsCI w)] combined)) []
  { korean_by_category := koreanUsage
    english_by_category := englishUsage
    top_korean_transitions := mostCommon 10 krSpecific
    top_english_transitions := mostCommon 10 enSpecific }

/- The fixed tone/emotion marker alternations of `_analyze_tone_detailed`. -/

def toneKrFormalHigh : List (List RTok) :=
  [lits (str "습니다"), lits (str "입니다"), lits (str "하십시오"), lits (str "드립니다"),
   lits (str "되겠습니다")]

def toneKrPolite : List (List RTok) :=
  [lits (str "해요"), lits (str "에요"), lits (str "죠"), lits (str "세요"), lits (str "군요")]

def toneKrInformal : List (List RTok) :=
  [lits (str "해") ++ [RTok.bnd], lits (str "야") ++ [RTok.bnd],
   lits (str "어") ++ [RTok.bnd], lits (str "지") ++ [RTok.bnd],
   lits (str "거야"), lits (str "잖아")]

def toneEnFormal : List (List RTok) :=
  [wbT (lits (str "please")), wbT (lits (str "kindly")), wbT (lits (str "regards")),
   wbT (lits (str "sincerely")), wbT (lits (str "respectfully"))]

def toneEnPolite : List (List RTok) :=
  [wbT (lits (str "thank you")), wbT (lits (str "appreciate")), wbT (lits (str "would you")),
   wbT (lits (str "could you"))]

def toneEnCasual : List (List RTok) :=
  [wbT (lits (str "hey")), wbT (lits (str "thanks")), wbT (lits (str "yeah")),
   wbT (lits (str "nope")), wbT (lits (str "awesome")), wbT (lits (str "cool"))]

def emoEnthusiastic : List (List RTok) :=
  [lits (str "!"), lits (str "정말"), lits (str "너무"), lits (str "아주"),
   lits (str "great"), lits (str "amazing"), lits (str "excellent"), lits (str "excited")]

def emoCautious : List (List RTok) :=
  [lits (str "아마"), lits (str "perhaps"), lits (str "maybe"), lits (str "might"),
   lits (str "possibly"), lits (str "조심"), lits (str "주의")]

def emoDirect : List (List RTok) :=
  [lits (str "must"), lits (str "should"), lits (str "need to"), lits (str "해야"),
   lits (str "필요합니다"), lits (str "중요합니다")]

/-- `_analyze_tone_detailed`.  Korean formality patterns run on the original
concatenation, English formality and all emotional indicators on its
lowercased form.  Tie on the formal/informal comparison yields `casual`. -/
def analyze_tone_detailed (texts : List Str) : ToneAnalysis :=
  let combined := joinSep (str " ") texts
  let combinedLower := lowerStr combined
  let fh := countMatches toneKrFormalHigh combined
  let fp := countMatches toneKrPolite combined
  let finf := countMatches toneKrInformal combined
  let ef := countMatches toneEnFormal combinedLower
  let ep := countMatches toneEnPolite combinedLower
  let ec := countMatches toneEnCasual combinedLower
  { korean_formality :=
      [(str "formal_high", fh), (str "formal_polite", fp), (str "informal", finf)]
    english_formality := [(str "formal", ef), (str "polite", ep), (str "casual", ec)]
    primary_korean_tone := if finf < fh then str "formal" else str "casual"
    primary_english_tone := if ec < ef then str "formal" else str "casual"
    emotional_indicators :=
      [(str "enthusiastic", countMatches emoEnthusiastic combinedLower),
       (str "cautious", countMatches emoCautious combinedLower),
       (str "direct", countMatches emoDirect combinedLower)] }

/- Structural regexes of `_analyze_structure` (MULTILINE). -/

def isBulletChar (c : Char) : Bool := c == '-' || c == '•' || c == '*'

def bulletPat : List RTok :=
  [RTok.bol, RTok.rep isPySpace 0 none, RTok.cls isBulletChar, RTok.cls isPySpace]

def numberingPat : List RTok :=
  [RTok.bol, RTok.rep isPySpace 0 none, RTok.rep Char.isDigit 1 none,
   RTok.cls (fun c => c == '.' || c == ')'), RTok.cls isPySpace]

def headerHashPat : List RTok :=
  [RTok.bol, RTok.rep (fun c => c == '#') 1 none, RTok.cls isPySpace]

def headerColonPat : List RTok :=
  [RTok.bol, RTok.cls (fun c => 'A' ≤ c && c ≤ 'Z'),
   RTok.rep (fun c => !(c == '.' || c == '!' || c == '?' || c == '\n')) 0 (some 50),
   RTok.lit ':', RTok.eol]

def boldPat : List RTok :=
  [RTok.lit '*', RTok.lit '*', RTok.rep (fun c => !(c == '*')) 1 none,
   RTok.lit '*', RTok.lit '*']

def codeBlockPat : List RTok := lits (str "```")

def tablePat : List RTok :=
  [RTok.lit '|', RTok.rep (fun c => !(c == '\n')) 1 none, RTok.lit '|']

/-- `_analyze_structure` (texts joined with a newline). -/
def analyze_structure (texts : List Str) : StructuralPatterns :=
  let combined := joinSep (str "\n") texts
  { patterns :=
      { uses_bullet_points := reSearch [bulletPat] combined
        uses_numbering := reSearch [numberingPat] combined
        uses_headers := reSearch [headerHashPat, headerColonPat] combined
        uses_bold := reSearch [boldPat] combined
        uses_code_blocks := reSearch [codeBlockPat] combined
        uses_tables := reSearch [tablePat] combined }
    counts :=
      { bullet_count := countMatches [bulletPat] combined
        number_count := countMatches [numberingPat] combined
        header_count := countMatches [headerHashPat] combined
        question_count := countMatches [[RTok.lit '?']] combined } }

/-- `re.match(r'^(the|a|an|is|are|was|were)\s', bg.lower())`: since bigrams are
`word ++ " " ++ word` with alphabetic words, this is a first-word test. -/
def bigramExcluded (bg : Str) : Bool :=
  let bl := lowerStr bg
  [str "the ", str "a ", str "an ", str "is ", str "are ", str "was ", str "were "].any
    (fun pre => pre.isPrefixOf bl)

/-- `_extract_signature_phrases`. -/
def extract_signature_phrases (texts : List Str) : SignaturePhrases :=
  let combined := joinSep (str " ") texts
  let words := wordTokens combined
  let bigrams := (words.zip words.tail).filterMap
    (fun p =>
      let bg := p.1 ++ ' ' :: p.2
      if bigramExcluded bg then none else some bg)
  let trigrams := (words.zip (words.tail.zip words.tail.tail)).map
    (fun p => p.1 ++ ' ' :: p.2.1 ++ ' ' :: p.2.2)
  let bigramFreq := mostCommon 30 (buildCounter bigrams)
  let trigramFreq := mostCommon 20 (buildCounter trigrams)
  { signature_bigrams := (bigramFreq.filter (fun p => decide (2 < p.2))).take 15
    signature_trigrams := (trigramFreq.filter (fun p => decide (2 < p.2))).take 10 }

/-- `_get_representative_sentences` (default `count = 15`).  The Python indexing
`filtered[i * step]` is in range because `i ≤ 14` and `step = len // 15` with
`len > 15`; `get?` makes the same accesses and never drops an element here. -/
def get_representative_sentences (sentences : List Str) : List Str :=
  match sentences with
  | [] => []
  | _ =>
    let filtered := sentences.filter
      (fun s => decide (30 < s.length) && decide (s.length < 300))
    if filtered.length ≤ 15 then filtered
    else
      let step := filtered.length / 15
      (List.range 15).filterMap (fun i => filtered.get? (i * step))

/-- `StyleAnalyzer.analyze`. -/
def analyze (texts : List Str) : StyleProfile :=
  let cleaned := texts.map clean_text
  let allSentences := (cleaned.map split_sentences).flatten
  let allParagraphs := (cleaned.map split_paragraphs).flatten
  { metadata :=
      { total_documents := texts.length
        total_characters := (cleaned.map List.length).sum }
    sentence_stats := analyze_sentences allSentences
    paragraph_stats := analyze_paragraphs allParagraphs
    vocabulary := analyze_vocabulary cleaned
    opening_patterns := extract_opening_patterns allParagraphs
    closing_patterns := extract_closing_patterns allParagraphs
    transition_analysis := some (analyze_transitions cleaned)
    tone_analysis := some (analyze_tone_detailed cleaned)
    structural_patterns := some (analyze_structure cleaned)
    signature_phrases := some (extract_signature_phrases cleaned)
    sample_sentences := get_representative_sentences allSentences }

/- `merge_profiles` and its helpers.  Python reads absent keys with
type-appropriate zero defaults; the record model carries the full key set that
analyzer/merger outputs always have, and `Option` sub-dicts model the `if not
d` emptiness tests. -/

/-- `_merge_sentence_stats`. -/
def merge_sentence_stats : Option SentenceStats → Option SentenceStats → Option SentenceStats
  | none, n => n
  | some e, none => some e
  | some e, some n =>
    let ec := e.total_sentences
    let nc := n.total_sentences
    let tc := ec + nc
    if tc = 0 then some e
    else
      let w1 : ℚ := (ec : ℚ) / (tc : ℚ)
      let w2 : ℚ := (nc : ℚ) / (tc : ℚ)
      some
        { avg_length_chars := e.avg_length_chars * w1 + n.avg_length_chars * w2
          std_dev_length := e.std_dev_length * w1 + n.std_dev_length * w2
          avg_word_count := e.avg_word_count * w1 + n.avg_word_count * w2
          min_length := min e.min_length n.min_length
          max_length := max e.max_length n.max_length
          total_sentences := tc
          length_distribution :=
            { short_pct :=
                e.length_distribution.short_pct * w1 + n.length_distribution.short_pct * w2
              medium_pct :=
                e.length_distribution.medium_pct * w1 + n.length_distribution.medium_pct * w2
              long_pct :=
                e.length_distribution.long_pct * w1 + n.length_distribution.long_pct * w2 } }

/-- `_merge_paragraph_stats`. -/
def merge_paragraph_stats : Option ParagraphStats → Option ParagraphStats → Option ParagraphStats
  | none, n => n
  | some e, none => some e
  | some e, some n =>
    let ec := e.total_paragraphs
    let nc := n.total_paragraphs
    let tc := ec + nc
    if tc = 0 then some e
    else
      let w1 : ℚ := (ec : ℚ) / (tc : ℚ)
      let w2 : ℚ := (nc : ℚ) / (tc : ℚ)
      some
        { avg_length_chars := e.avg_length_chars * w1 + n.avg_length_chars * w2
          avg_sentences_per_para :=
            e.avg_sentences_per_para * w1 + n.avg_sentences_per_para * w2
          total_paragraphs := tc
          single_sentence_para_pct :=
            e.single_sentence_para_pct * w1 + n.single_sentence_para_pct * w2 }

/-- `_merge_vocabulary` (`merge_word_lists` is `mergeFreqLists 20`). -/
def merge_vocabulary : Option Vocabulary → Option Vocabulary → Option Vocabulary
  | none, n => n
  | some e, none => some e
  | some e, some n =>
    let totalWords := e.total_meaningful_words + n.total_meaningful_words
    let uniqueWords := e.unique_words + n.unique_words
    some
      { total_meaningful_words := totalWords
        unique_words := uniqueWords
        vocabulary_richness :=
          if 0 < totalWords then (uniqueWords : ℚ) / (totalWords : ℚ) else 0
        top_korean_words := mergeFreqLists 20 e.top_korean_words n.top_korean_words
        top_english_words := mergeFreqLists 20 e.top_english_words n.top_english_words }

/-- `_merge_patterns`.  The output dict always uses the opening-pattern key
names, with each slot picking the first- or last-style source keys according to
whether `common_first_words` / `common_first_phrases` / `greeting_patterns` /
`sample_openings` is present in `existing`. -/
def merge_patterns : Option PatternStats → Option PatternStats → Option PatternStats
  | none, n => n
  | some e, none => some e
  | some e, some n =>
    some
      { common_first_words := some
          (if e.common_first_words.isSome then
            mergeFreqLists 15 (e.common_first_words.getD []) (n.common_first_words.getD [])
          else
            mergeFreqLists 15 (e.common_last_words.getD []) (n.common_last_words.getD []))
        common_first_phrases := some
          (if e.common_first_phrases.isSome then
            mergeFreqLists 15 (e.common_first_phrases.getD []) (n.common_first_phrases.getD [])
          else
            mergeFreqLists 15 (e.common_last_phrases.getD []) (n.common_last_phrases.getD []))
        greeting_patterns := some
          (if e.greeting_patterns.isSome then
            merge_pattern_dicts (e.greeting_patterns.getD []) (n.greeting_patterns.getD [])
          else
            merge_pattern_dicts (e.signoff_patterns.getD []) (n.signoff_patterns.getD []))
        sample_openings := some
          (if e.sample_openings.isSome then
            (n.sample_openings.getD []).take 5 ++ (e.sample_openings.getD []).take 5
          else
            (n.sample_closings.getD []).take 5 ++ (e.sample_closings.getD []).take 5)
        common_last_words := none
        common_last_phrases := none
        signoff_patterns := none
        sample_closings := none }

/-- `_merge_transitions`. -/
def merge_transitions : Option TransitionAnalysis → Option TransitionAnalysis →
    Option TransitionAnalysis
  | none, n => n
  | some e, none => some e
  | some e, some n =>
    some
      { korean_by_category := unionSum e.korean_by_category n.korean_by_category
        english_by_category := unionSum e.english_by_category n.english_by_category
        top_korean_transitions :=
          mergeFreqLists 10 e.top_korean_transitions n.top_korean_transitions
        top_english_transitions :=
          mergeFreqLists 10 e.top_english_transitions n.top_english_transitions }

/-- `_merge_tone`. -/
def merge_tone : Option ToneAnalysis → Option ToneAnalysis → Option ToneAnalysis
  | none, n => n
  | some e, none => some e
  | some e, some n =>
    let mergedKr := unionSum e.korean_formality n.korean_formality
    let mergedEn := unionSum e.english_formality n.english_formality
    some
      { korean_formality := mergedKr
        english_formality := mergedEn
        primary_korean_tone :=
          if (lookupC mergedKr (str "informal")).getD 0 <
              (lookupC mergedKr (str "formal_high")).getD 0
          then str "formal" else str "casual"
        primary_english_tone :=
          if (lookupC mergedEn (str "casual")).getD 0 <
              (lookupC mergedEn (str "formal")).getD 0
          then str "formal" else str "casual"
        emotional_indicators := unionSum e.emotional_indicators n.emotional_indicators }

/-- `_merge_structure`: OR on flags, sums on counts. -/
def merge_structure : Option StructuralPatterns → Option StructuralPatterns →
    Option StructuralPatterns
  | none, n => n
  | some e, none => some e
  | some e, some n =>
    some
      { patterns :=
          { uses_bullet_points := e.patterns.uses_bullet_points || n.patterns.uses_bullet_points
            uses_numbering := e.patterns.uses_numbering || n.patterns.uses_numbering
            uses_headers := e.patterns.uses_headers || n.patterns.uses_headers
            uses_bold := e.patterns.uses_bold || n.patterns.uses_bold
            uses_code_blocks := e.patterns.uses_code_blocks || n.patterns.uses_code_blocks
            uses_tables := e.patterns.uses_tables || n.patterns.uses_tables }
        counts :=
          { bullet_count := e.counts.bullet_count + n.counts.bullet_count
            number_count := e.counts.number_count + n.counts.number_count
            header_count := e.counts.header_count + n.counts.header_count
            question_count := e.counts.question_count + n.counts.question_count } }

/-- `_merge_signatures`. -/
def merge_signatures : Option SignaturePhrases → Option SignaturePhrases →
    Option SignaturePhrases
  | none, n => n
  | some e, none => some e
  | some e, some n =>
    some
      { signature_bigrams := mergeFreqLists 15 e.signature_bigrams n.signature_bigrams
        signature_trigrams := mergeFreqLists 10 e.signature_trigrams n.signature_trigrams }

/-- `merge_profiles(existing_profile, new_profile)`. -/
def merge_profiles (existing newP : StyleProfile) : StyleProfile :=
  { metadata :=
      { total_documents :=
          existing.metadata.total_documents + newP.metadata.total_documents
        total_characters :=
          existing.metadata.total_characters + newP.metadata.total_characters }
    sentence_stats := merge_sentence_stats existing.sentence_stats newP.sentence_stats
    paragraph_stats := merge_paragraph_stats existing.paragraph_stats newP.paragraph_stats
    vocabulary := merge_vocabulary existing.vocabulary newP.vocabulary
    opening_patterns := merge_patterns existing.opening_patterns newP.opening_patterns
    closing_patterns := merge_patterns existing.closing_patterns newP.closing_patterns
    transition_analysis :=
      merge_transitions existing.transition_analysis newP.transition_analysis
    tone_analysis := merge_tone existing.tone_analysis newP.tone_analysis
    structural_patterns :=
      merge_structure existing.structural_patterns newP.structural_patterns
    signature_phrases := merge_signatures existing.signature_phrases newP.signature_phrases
    sample_sentences := (newP.sample_sentences ++ existing.sample_sentences).take 15 }

/- Empty-side behaviour of each sub-merger. -/

theorem merge_sentence_stats_empty_left (x : Option SentenceStats) :
    merge_sentence_stats none x = x := by cases x <;> rfl

theorem merge_sentence_stats_empty_right (x : Option SentenceStats) :
    merge_sentence_stats x none = x := by cases x <;> rfl

theorem merge_paragraph_stats_empty_left (x : Option ParagraphStats) :
    merge_paragraph_stats none x = x := by cases x <;> rfl

theorem merge_paragraph_stats_empty_right (x : Option ParagraphStats) :
    merge_paragraph_stats x none = x := by cases x <;> rfl

theorem merge_vocabulary_empty_left (x : Option Vocabulary) :
    merge_vocabulary none x = x := by cases x <;> rfl

theorem merge_vocabulary_empty_right (x : Option Vocabulary) :
    merge_vocabulary x none = x := by cases x <;> rfl

theorem merge_patterns_empty_left (x : Option PatternStats) :
    merge_patterns none x = x := by cases x <;> rfl

theorem merge_patterns_empty_right (x : Option PatternStats) :
    merge_patterns x none = x := by cases x <;> rfl

theorem merge_transitions_empty_left (x : Option TransitionAnalysis) :
    merge_transitions none x = x := by cases x <;> rfl

theorem merge_transitions_empty_right (x : Option TransitionAnalysis) :
    merge_transitions x none = x := by cases x <;> rfl

theorem merge_tone_empty_left (x : Option ToneAnalysis) :
    merge_tone none x = x := by cases x <;> rfl

theorem merge_tone_empty_right (x : Option ToneAnalysis) :
    merge_tone x none = x := by cases x <;> rfl

theorem merge_structure_empty_left (x : Option StructuralPatterns) :
    merge_structure none x = x := by cases x <;> rfl

theorem merge_structure_empty_right (x : Option StructuralPatterns) :
    merge_structure x none = x := by cases x <;> rfl

theorem merge_signatures_empty_left (x : Option SignaturePhrases) :
    merge_signatures none x = x := by cases x <;> rfl

theorem merge_signatures_empty_right (x : Option SignaturePhrases) :
    merge_signatures x none = x := by cases x <;> rfl

/-- C1: merging any profile with the empty/absent profile, in either argument
position, returns that profile unchanged.  The only precondition is the sample
cap `|sample_sentences| ≤ 15`, which every profile produced by `analyze` or
`merge_profiles` satisfies. -/
theorem merge_with_empty_identity (P : StyleProfile)
    (h : P.sample_sentences.length ≤ 15) :
    merge_profiles P emptyProfile = P ∧ merge_profiles emptyProfile P = P := by
  obtain ⟨⟨d, c⟩, ss, ps, v, op, cp, ta, tn, sp, sg, samp⟩ := P
  constructor <;>
    simp [merge_profiles, emptyProfile,
      merge_sentence_stats_empty_left, merge_sentence_stats_empty_right,
      merge_paragraph_stats_empty_left, merge_paragraph_stats_empty_right,
      merge_vocabulary_empty_left, merge_vocabulary_empty_right,
      merge_patterns_empty_left, merge_patterns_empty_right,
      merge_transitions_empty_left, merge_transitions_empty_right,
      merge_tone_empty_left, merge_tone_empty_right,
      merge_structure_empty_left, merge_structure_empty_right,
      merge_signatures_empty_left, merge_signatures_empty_right,
      List.take_of_length_le h]

/-- Witness for C1 at a concrete profile. -/
theorem merge_with_empty_identity_witness :
    (analyze []).sample_sentences.length ≤ 15 ∧
      merge_profiles (analyze []) emptyProfile = analyze [] ∧
      merge_profiles emptyProfile (analyze []) = analyze [] :=
  ⟨by decide, (merge_with_empty_identity (analyze []) (by decide)).1,
    (merge_with_empty_identity (analyze []) (by decide)).2⟩

def c2Text : Str := str "오늘도 도와주셔서 감사합니다."

/-- C2: evidence that `merge_profiles` is not associative on the closing
sign-off pattern counts.  For the analyzed profile `A` of a one-sign-off
document, `merge(merge(A,A),A)` records the `감사합니다` sign-off with count 2
while `merge(A,merge(A,A))` records it with count 1 — and both store the
closing-pattern data under the opening-pattern key `greeting_patterns`,
because `_merge_patterns` hardcodes opening-pattern key names in its output. -/
theorem merge_closing_not_associative :
    ((merge_profiles (merge_profiles (analyze [c2Text]) (analyze [c2Text]))
        (analyze [c2Text])).closing_patterns.map (fun c => c.greeting_patterns))
      = some (some [(str "감사합니다", 2)]) ∧
    ((merge_profiles (analyze [c2Text]) (merge_profiles (analyze [c2Text])
        (analyze [c2Text]))).closing_patterns.map (fun c => c.greeting_patterns))
      = some (some [(str "감사합니다", 1)]) := by decide

/- C6: the all-zero/empty shape of a profile. -/

def countsAllZero (l : List (Str × Nat)) : Bool := l.all (fun p => p.2 == 0)

def profileAllZero (p : StyleProfile) : Bool :=
  p.sentence_stats.isNone && p.paragraph_stats.isNone &&
  (p.vocabulary.all fun v =>
    v.total_meaningful_words == 0 && v.unique_words == 0 &&
      decide (v.vocabulary_richness = 0) &&
      v.top_korean_words.isEmpty && v.top_english_words.isEmpty) &&
  p.opening_patterns.isNone && p.closing_patterns.isNone &&
  (p.transition_analysis.all fun t =>
    countsAllZero t.korean_by_category && countsAllZero t.english_by_category &&
      countsAllZero t.top_korean_transitions && countsAllZero t.top_english_transitions) &&
  (p.tone_analysis.all fun t =>
    countsAllZero t.korean_formality && countsAllZero t.english_formality &&
      countsAllZero t.emotional_indicators) &&
  (p.structural_patterns.all fun s =>
    !s.patterns.uses_bullet_points && !s.patterns.uses_numbering &&
      !s.patterns.uses_headers && !s.patterns.uses_bold &&
      !s.patterns.uses_code_blocks && !s.patterns.uses_tables &&
      s.counts.bullet_count == 0 && s.counts.number_count == 0 &&
      s.counts.header_count == 0 && s.counts.question_count == 0) &&
  (p.signature_phrases.all fun s =>
    s.signature_bigrams.isEmpty && s.signature_trigrams.isEmpty) &&
  p.sample_sentences.isEmpty

/-- C6: `analyze([])` returns (totally, in this embedding every analyzer
function is total) a profile with zero document/character totals and all
sub-structures empty or all-zero: the stats dicts and pattern dicts are empty,
every count in the vocabulary/transition/tone/structure sub-structures is zero,
every flag false, and every sample list empty.  (The `primary_*_tone` labels
carry their zero-input default `"casual"`.) -/
theorem analyze_empty_all_zero :
    (analyze []).metadata.total_documents = 0 ∧
      (analyze []).metadata.total_characters = 0 ∧
      profileAllZero (analyze []) = true := by decide

/- C7: vocabulary richness bounds. -/

theorem bump_length_le {α : Type} [DecidableEq α] (l : List (α × Nat)) (x : α) :
    (bump l x).length ≤ l.length + 1 := by
  induction l with
  | nil => simp [bump]
  | cons p rest ih =>
    obtain ⟨y, c⟩ := p
    by_cases h : y = x
    · simp [bump, h]
    · simp [bump, h]
      omega


theorem foldl_bump_length_le {α : Type} [DecidableEq α] (l : List α)
    (acc : List (α × Nat)) :
    (l.foldl bump acc).length ≤ acc.length + l.length := by
  induction l generalizing acc with
  | nil => simp
  | cons x rest ih =>
    calc (rest.foldl bump (bump acc x)).length ≤ (bump acc x).length + rest.length := ih _
      _ ≤ acc.length + (rest.length + 1) := by
          have := bump_length_le acc x
          omega
      _ = acc.length + (x :: rest).length := by simp [List.length_cons]

/-- `Counter(xs)` has at most `len(xs)` distinct keys. -/
theorem buildCounter_length_le {α : Type} [DecidableEq α] (xs : List α) :
    (buildCounter xs).length ≤ xs.length := by
  have := foldl_bump_length_le xs ([] : List (α × Nat))
  simpa [buildCounter] using this

theorem richness_core (u t : Nat) (h : u ≤ t) :
    0 ≤ (if 0 < t then (u : ℚ) / (t : ℚ) else 0) ∧
      (if 0 < t then (u : ℚ) / (t : ℚ) else 0) ≤ 1 ∧
      (t = 0 → (if 0 < t then (u : ℚ) / (t : ℚ) else 0) = 0) := by
  by_cases ht : 0 < t
  · have htq : (0 : ℚ) < (t : ℚ) := by exact_mod_cast ht
    refine ⟨?_, ?_, ?_⟩
    · simp [ht]
      positivity
    · simp [ht]
      rw [div_le_one htq]
      exact_mod_cast h
    · intro h0
      omega
  · simp [ht]

def vocabWF (o : Option Vocabulary) : Bool :=
  o.all fun v => decide (v.unique_words ≤ v.total_meaningful_words)

def vocabRichnessOK (o : Option Vocabulary) : Bool :=
  o.all fun v =>
    decide (0 ≤ v.vocabulary_richness) && decide (v.vocabulary_richness ≤ 1) &&
      (!(v.total_meaningful_words == 0) || decide (v.vocabulary_richness = 0))

theorem analyze_vocabulary_ok (texts : List Str) :
    vocabWF (analyze_vocabulary texts) = true ∧
      vocabRichnessOK (analyze_vocabulary texts) = true := by
  have hle : (buildCounter (
      (wordTokens (lowerStr (joinSep (str " ") texts))).filter keepWord)).length ≤
      ((wordTokens (lowerStr (joinSep (str " ") texts))).filter keepWord).length :=
    buildCounter_length_le _
  obtain ⟨h0, h1, h2⟩ := richness_core _ _ hle
  refine ⟨?_, ?_⟩
  · simp [vocabWF, analyze_vocabulary, Option.all, hle]
  · simp only [vocabRichnessOK, analyze_vocabulary, Option.all]
    simp only [Bool.and_eq_true, Bool.or_eq_true, decide_eq_true_eq, Bool.not_eq_true',
      beq_eq_false_iff_ne, ne_eq]
    refine ⟨⟨h0, h1⟩, ?_⟩
    by_cases hz :
        ((wordTokens (lowerStr (joinSep (str " ") texts))).filter keepWord).length = 0
    · right
      exact h2 hz
    · left
      exact hz

/-- C7: for analyzer output and for merges of richness-well-formed profiles,
`0 ≤ vocabulary_richness ≤ 1`, and richness is 0 when the meaningful-word
total is 0 (the zero denominator is guarded, never divided by). -/
theorem vocabulary_richness_bounds :
    (∀ ts : List Str,
      vocabWF (analyze ts).vocabulary = true ∧
        vocabRichnessOK (analyze ts).vocabulary = true) ∧
    (∀ A B : StyleProfile,
      vocabWF A.vocabulary = true → vocabRichnessOK A.vocabulary = true →
      vocabWF B.vocabulary = true → vocabRichnessOK B.vocabulary = true →
      vocabWF (merge_profiles A B).vocabulary = true ∧
        vocabRichnessOK (merge_profiles A B).vocabulary = true) := by
  constructor
  · intro ts
    have := analyze_vocabulary_ok (ts.map clean_text)
    simpa [analyze] using this
  · intro A B hwA hrA hwB hrB
    have hmv : (merge_profiles A B).vocabulary = merge_vocabulary A.vocabulary B.vocabulary := rfl
    rw [hmv]
    revert hwA hrA hwB hrB
    cases A.vocabulary with
    | none =>
      intro _ _ hwB hrB
      rw [merge_vocabulary_empty_left]
      exact ⟨hwB, hrB⟩
    | some va =>
      cases B.vocabulary with
      | none =>
        intro hwA hrA _ _
        rw [merge_vocabulary_empty_right]
        exact ⟨hwA, hrA⟩
      | some vb =>
        intro hwA hrA hwB hrB
        simp only [vocabWF, Option.all, decide_eq_true_eq] at hwA hwB
        have hle : va.unique_words + vb.unique_words ≤
            va.total_meaningful_words + vb.total_meaningful_words :=
          Nat.add_le_add hwA hwB
        obtain ⟨h0, h1, h2⟩ := richness_core _ _ hle
        constructor
        · simp [vocabWF, merge_vocabulary, Option.all, hle]
        · simp only [merge_vocabulary, vocabRichnessOK, Option.all]
          simp only [Bool.and_eq_true, Bool.or_eq_true, decide_eq_true_eq,
            Bool.not_eq_true', beq_eq_false_iff_ne, ne_eq]
          refine ⟨⟨h0, h1⟩, ?_⟩
          by_cases hz : va.total_meaningful_words + vb.total_meaningful_words = 0
          · right
            exact h2 hz
          · left
            exact hz

/-- Witness for C7 at concrete profiles. -/
theorem vocabulary_richness_bounds_witness :
    vocabWF (merge_profiles (analyze []) (analyze [])).vocabulary = true ∧
      vocabRichnessOK (merge_profiles (analyze []) (analyze [])).vocabulary = true :=
  vocabulary_richness_bounds.2 (analyze []) (analyze [])
    (by decide) (by decide) (by decide) (by decide)

/- C8: ranked-list caps. -/

theorem mostCommon_length_le {α : Type} (n : Nat) (l : List (α × Nat)) :
    (mostCommon n l).length ≤ n := by
  simp only [mostCommon, List.length_take]
  exact Nat.min_le_left _ _

theorem mergeFreqLists_length_le {α : Type} [DecidableEq α] (n : Nat)
    (l1 l2 : List (α × Nat)) : (mergeFreqLists n l1 l2).length ≤ n := by
  simp only [mergeFreqLists, List.length_take]
  exact Nat.min_le_left _ _

theorem representative_length_le (l : List Str) :
    (get_representative_sentences l).length ≤ 15 := by
  cases l with
  | nil => simp [get_representative_sentences]
  | cons s rest =>
    simp only [get_representative_sentences]
    split
    · assumption
    · calc ((List.range 15).filterMap _).length ≤ (List.range 15).length :=
          List.length_filterMap_le _ _
        _ = 15 := by simp

def vocabCaps (o : Option Vocabulary) : Bool :=
  o.all fun v =>
    decide (v.top_korean_words.length ≤ 20) && decide (v.top_english_words.length ≤ 20)

def patCaps (o : PatternStats) : Bool :=
  (o.common_first_words.all fun l => decide (l.length ≤ 15)) &&
  (o.common_first_phrases.all fun l => decide (l.length ≤ 15)) &&
  (o.common_last_words.all fun l => decide (l.length ≤ 15)) &&
  (o.common_last_phrases.all fun l => decide (l.length ≤ 15))

def transCaps (o : Option TransitionAnalysis) : Bool :=
  o.all fun t =>
    decide (t.top_korean_transitions.length ≤ 10) &&
      decide (t.top_english_transitions.length ≤ 10)

def sigCaps (o : Option SignaturePhrases) : Bool :=
  o.all fun s =>
    decide (s.signature_bigrams.length ≤ 15) && decide (s.signature_trigrams.length ≤ 10)

/-- The documented caps claimed for every ranked list of a profile. -/
def capsOK (p : StyleProfile) : Bool :=
  vocabCaps p.vocabulary &&
  (p.opening_patterns.all patCaps) && (p.closing_patterns.all patCaps) &&
  transCaps p.transition_analysis && sigCaps p.signature_phrases &&
  decide (p.sample_sentences.length ≤ 15)

theorem analyze_vocabulary_caps (texts : List Str) :
    vocabCaps (analyze_vocabulary texts) = true := by
  simp only [vocabCaps, analyze_vocabulary, Option.all, Bool.and_eq_true, decide_eq_true_eq]
  constructor
  · simp only [List.length_take]
    exact Nat.min_le_left _ _
  · simp only [List.length_take]
    exact Nat.min_le_left _ _

theorem extract_opening_caps (ps : List Str) :
    (extract_opening_patterns ps).all patCaps = true := by
  cases ps with
  | nil => rfl
  | cons p rest =>
    simp [extract_opening_patterns, patCaps, Option.all, mostCommon_length_le]

theorem extract_closing_caps (ps : List Str) :
    (extract_closing_patterns ps).all patCaps = true := by
  cases ps with
  | nil => rfl
  | cons p rest =>
    simp [extract_closing_patterns, patCaps, Option.all, mostCommon_length_le]

theorem merge_vocabulary_caps (x y : Option Vocabulary)
    (hx : vocabCaps x = true) (hy : vocabCaps y = true) :
    vocabCaps (merge_vocabulary x y) = true := by
  cases x with
  | none => rw [merge_vocabulary_empty_left]; exact hy
  | some vx =>
    cases y with
    | none => rw [merge_vocabulary_empty_right]; exact hx
    | some vy =>
      simp [vocabCaps, merge_vocabulary, Option.all, mergeFreqLists_length_le]

theorem merge_patterns_caps (x y : Option PatternStats)
    (hx : x.all patCaps = true) (hy : y.all patCaps = true) :
    (merge_patterns x y).all patCaps = true := by
  cases x with
  | none => rw [merge_patterns_empty_left]; exact hy
  | some px =>
    cases y with
    | none => rw [merge_patterns_empty_right]; exact hx
    | some py =>
      simp only [merge_patterns, Option.all, patCaps]
      have h1 := mergeFreqLists_length_le (α := Str) 15
      by_cases h : px.common_first_words.isSome <;>
        by_cases h2 : px.common_first_phrases.isSome <;>
          simp [h, h2, mergeFreqLists_length_le]

theorem merge_transitions_caps (x y : Option TransitionAnalysis)
    (hx : transCaps x = true) (hy : transCaps y = true) :
    transCaps (merge_transitions x y) = true := by
  cases x with
  | none => rw [merge_transitions_empty_left]; exact hy
  | some tx =>
    cases y with
    | none => rw [merge_transitions_empty_right]; exact hx
    | some ty =>
      simp [transCaps, merge_transitions, Option.all, mergeFreqLists_length_le]

theorem merge_signatures_caps (x y : Option SignaturePhrases)
    (hx : sigCaps x = true) (hy : sigCaps y = true) :
    sigCaps (merge_signatures x y) = true := by
  cases x with
  | none => rw [merge_signatures_empty_left]; exact hy
  | some sx =>
    cases y with
    | none => rw [merge_signatures_empty_right]; exact hx
    | some sy =>
      simp [sigCaps, merge_signatures, Option.all, mergeFreqLists_length_le]

/-- C8: no ranked list exceeds its documented cap (top word lists ≤ 20,
first/last word and phrase lists ≤ 15, top transition lists ≤ 10, signature
bigrams ≤ 15, signature trigrams ≤ 10, sample sentences ≤ 15), after `analyze`
on any input and after `merge_profiles` of any two cap-respecting profiles. -/
theorem ranked_list_caps :
    (∀ ts : List Str, capsOK (analyze ts) = true) ∧
    (∀ A B : StyleProfile, capsOK A = true → capsOK B = true →
      capsOK (merge_profiles A B) = true) := by
  constructor
  · intro ts
    simp only [capsOK, analyze, Bool.and_eq_true]
    refine ⟨⟨⟨⟨⟨?_, ?_⟩, ?_⟩, ?_⟩, ?_⟩, ?_⟩
    · exact analyze_vocabulary_caps _
    · exact extract_opening_caps _
    · exact extract_closing_caps _
    · simp [transCaps, analyze_transitions, Option.all, mostCommon_length_le]
    · simp only [sigCaps, extract_signature_phrases, Option.all, Bool.and_eq_true,
        decide_eq_true_eq]
      constructor
      · simp only [List.length_take]
        exact Nat.min_le_left _ _
      · simp only [List.length_take]
        exact Nat.min_le_left _ _
    · simp only [decide_eq_true_eq]
      exact representative_length_le _
  · intro A B hA hB
    simp only [capsOK, Bool.and_eq_true] at hA hB
    obtain ⟨⟨⟨⟨⟨hv1, ho1⟩, hc1⟩, ht1⟩, hs1⟩, hl1⟩ := hA
    obtain ⟨⟨⟨⟨⟨hv2, ho2⟩, hc2⟩, ht2⟩, hs2⟩, hl2⟩ := hB
    simp only [capsOK, merge_profiles, Bool.and_eq_true]
    refine ⟨⟨⟨⟨⟨?_, ?_⟩, ?_⟩, ?_⟩, ?_⟩, ?_⟩
    · exact merge_vocabulary_caps _ _ hv1 hv2
    · exact merge_patterns_caps _ _ ho1 ho2
    · exact merge_patterns_caps _ _ hc1 hc2
    · exact merge_transitions_caps _ _ ht1 ht2
    · exact merge_signatures_caps _ _ hs1 hs2
    · simp only [decide_eq_true_eq, List.length_take]
      exact Nat.min_le_left _ _

/-- Witness for C8 at concrete profiles. -/
theorem ranked_list_caps_witness :
    capsOK (merge_profiles (analyze []) (analyze [])) = true :=
  ranked_list_caps.2 (analyze []) (analyze []) (by decide) (by decide)

/- C10: sample-sentence length bounds. -/

def sampleLenOK (p : StyleProfile) : Bool :=
  p.sample_sentences.all fun s => decide (30 < s.length) && decide (s.length < 300)

theorem representative_mem (l : List Str) (s : Str)
    (h : s ∈ get_representative_sentences l) : 30 < s.length ∧ s.length < 300 := by
  cases l with
  | nil => simp [get_representative_sentences] at h
  | cons x rest =>
    simp only [get_representative_sentences] at h
    have hs : s ∈ (x :: rest).filter
        (fun s => decide (30 < s.length) && decide (s.length < 300)) := by
      by_cases hlen : ((x :: rest).filter
          (fun s => decide (30 < s.length) && decide (s.length < 300))).length ≤ 15
      · simpa [hlen] using h
      · simp only [hlen, if_false] at h
        obtain ⟨i, _, hget⟩ := List.mem_filterMap.mp h
        exact List.get?_mem hget
    have := (List.mem_filter.mp hs).2
    simp only [Bool.and_eq_true, decide_eq_true_eq] at this
    exact this

/-- C10: every sentence kept in `sample_sentences` by `analyze` has length
strictly between 30 and 300, and `merge_profiles` only ever draws merged
samples from its two inputs' sample lists, preserving any such bound. -/
theorem sample_sentence_length_bounds :
    (∀ ts : List Str, sampleLenOK (analyze ts) = true) ∧
    (∀ A B : StyleProfile, sampleLenOK A = true → sampleLenOK B = true →
      sampleLenOK (merge_profiles A B) = true) := by
  constructor
  · intro ts
    simp only [sampleLenOK, analyze, List.all_eq_true]
    intro s hs
    have := representative_mem _ s hs
    simp only [Bool.and_eq_true, decide_eq_true_eq]
    exact this
  · intro A B hA hB
    simp only [sampleLenOK, List.all_eq_true] at hA hB ⊢
    intro s hs
    have hmem : s ∈ B.sample_sentences ++ A.sample_sentences :=
      List.take_subset _ _ hs
    rcases List.mem_append.mp hmem with hsB | hsA
    · exact hB s hsB
    · exact hA s hsA

/-- Witness for C10 at concrete profiles. -/
theorem sample_sentence_length_bounds_witness :
    sampleLenOK (merge_profiles (analyze []) (analyze [])) = true :=
  sample_sentence_length_bounds.2 (analyze []) (analyze []) (by decide) (by decide)

/- C3: what `_extract_opening_patterns` / `_extract_closing_patterns` record. -/

/-- The openings the claim describes: first sentence of each paragraph, with a
first-100-characters fallback when segmentation yields nothing. -/
def claimedOpenings (ps : List Str) : List Str :=
  ps.map fun p =>
    match split_sentences p with
    | [] => p.take 100
    | s :: _ => s

def c3Paras : List Str := [str "hi", List.replicate 109 'a' ++ ['.']]

/-- C3 counterexample: on `["hi", "aaa…a."]` the recorded openings are neither
per-paragraph nor untruncated: the no-sentence paragraph `"hi"` is skipped
(no 100-character fallback), and the 110-character first sentence is cut to
its first 100 characters. -/
theorem opening_fallback_counterexample :
    openingsOf c3Paras ≠ claimedOpenings c3Paras := by decide

theorem openingsOf_foldl (ps : List Str) (acc : List Str) :
    ps.foldl
      (fun a p =>
        match split_sentences p with
        | [] => a
        | s :: _ => a ++ [s.take 100])
      acc
      = acc ++ ps.filterMap (fun p => ((split_sentences p).head?).map (·.take 100)) := by
  induction ps generalizing acc with
  | nil => simp
  | cons p ps ih =>
    simp only [List.foldl_cons, List.filterMap_cons]
    cases h : split_sentences p with
    | nil => simp [h, ih]
    | cons s tl => simp [h, ih]

theorem closingsOf_foldl (ps : List Str) (acc : List Str) :
    ps.foldl
      (fun a p =>
        match (split_sentences p).getLast? with
        | none => a
        | some lastS =>
          a ++ [if 100 < lastS.length then lastS.drop (lastS.length - 100) else lastS])
      acc
      = acc ++ ps.filterMap (fun p => ((split_sentences p).getLast?).map
          (fun s => if 100 < s.length then s.drop (s.length - 100) else s)) := by
  induction ps generalizing acc with
  | nil => simp
  | cons p ps ih =>
    simp only [List.foldl_cons, List.filterMap_cons]
    cases h : (split_sentences p).getLast? with
    | none => simp [h, ih]
    | some lastS => simp [h, ih]

/-- C3 amended: a paragraph contributes an opening only when its segmentation
yields at least one sentence, and the recorded opening is that first sentence
truncated to its first 100 characters (there is no raw-text fallback); the
recorded closing is likewise only present for paragraphs with a sentence, and
is the last sentence, cut to its last 100 characters when longer than 100. -/
theorem opening_closing_recorded (ps : List Str) :
    openingsOf ps
        = ps.filterMap (fun p => ((split_sentences p).head?).map (·.take 100)) ∧
      closingsOf ps
        = ps.filterMap (fun p => ((split_sentences p).getLast?).map
            (fun s => if 100 < s.length then s.drop (s.length - 100) else s)) := by
  constructor
  · have := openingsOf_foldl ps []
    simpa [openingsOf] using this
  · have := closingsOf_foldl ps []
    simpa [closingsOf] using this

/- C4: greeting/sign-off counting. -/

def c4Para : Str := str "Thank you Sam. Thank you very much."

/-- C4 counterexample: the paragraph contains the catalogue phrase
`"Thank you"` twice as a literal substring, but the profile records
`greeting_patterns["Thank you"] = 1`: detection runs over the extracted
opening strings and adds at most one per string, not over raw paragraph
text by occurrence. -/
theorem greeting_count_counterexample :
    ((extract_opening_patterns [c4Para]).map (fun o => o.greeting_patterns))
        = some (some [(str "Thank you", 1)]) ∧
      countMatches [lits (str "Thank you")] c4Para = 2 := by decide

theorem greetFold (ts : List Str) (a : GreetCounts) :
    ts.foldl greetStep a =
      ⟨a.cHaseyo + ts.countP greetsHaseyo, a.cAnnyeong + ts.countP greetsAnnyeong,
        a.cHello + ts.countP greetsHello, a.cHi + ts.countP greetsHi,
        a.cDear + ts.countP greetsDear, a.cGoodMA + ts.countP greetsGoodMA,
        a.cThankYou + ts.countP greetsThankYou, a.cGamsa + ts.countP greetsGamsa⟩ := by
  induction ts generalizing a with
  | nil => simp
  | cons t ts ih =>
    rw [List.foldl_cons, ih]
    simp only [greetStep, List.countP_cons, GreetCounts.mk.injEq]
    refine ⟨?_, ?_, ?_, ?_, ?_, ?_, ?_, ?_⟩ <;> omega

theorem signoffFold (ts : List Str) (a : SignoffCounts) :
    ts.foldl signoffStep a =
      ⟨a.cBestRegards + ts.countP soBestRegards, a.cBest + ts.countP soBest,
        a.cThanks + ts.countP soThanks, a.cThankYou + ts.countP soThankYou,
        a.cSincerely + ts.countP soSincerely, a.cGamsa + ts.countP soGamsa,
        a.cButak + ts.countP soButak, a.cMalsseum + ts.countP soMalsseum⟩ := by
  induction ts generalizing a with
  | nil => simp
  | cons t ts ih =>
    rw [List.foldl_cons, ih]
    simp only [signoffStep, List.countP_cons, SignoffCounts.mk.injEq]
    refine ⟨?_, ?_, ?_, ?_, ?_, ?_, ?_, ?_⟩ <;> omega

/-- C4 amended: each greeting count is the number of extracted opening strings
satisfying that pattern's detection condition (substring of the lowercased
text for the English phrases, `hi` as a boundary-delimited prefix, `안녕`
only when `안녕하세요` is absent), each sign-off count is the analogous count
over the extracted closing strings (`Best` only without `best regards` and on
texts shorter than 50 chars), and a pattern appears in the output mapping iff
its count is positive. -/
theorem greeting_signoff_counts (ts : List Str) :
    detect_greetings ts =
      ([(str "안녕하세요", ts.countP greetsHaseyo), (str "안녕", ts.countP greetsAnnyeong),
        (str "Hello", ts.countP greetsHello), (str "Hi", ts.countP greetsHi),
        (str "Dear", ts.countP greetsDear),
        (str "Good morning/afternoon", ts.countP greetsGoodMA),
        (str "Thank you", ts.countP greetsThankYou),
        (str "감사합니다", ts.countP greetsGamsa)].filter (fun p => decide (0 < p.2))) ∧
    detect_signoffs ts =
      ([(str "Best regards", ts.countP soBestRegards), (str "Best", ts.countP soBest),
        (str "Thanks", ts.countP soThanks), (str "Thank you", ts.countP soThankYou),
        (str "Sincerely", ts.countP soSincerely), (str "감사합니다", ts.countP soGamsa),
        (str "부탁드립니다", ts.countP soButak),
        (str "말씀해 주세요", ts.countP soMalsseum)].filter (fun p => decide (0 < p.2))) := by
  constructor
  · simp [detect_greetings, greetFold]
  · simp [detect_signoffs, signoffFold]

/- C5: transition counting. -/

theorem lookupC_append {α : Type} [DecidableEq α] (l1 l2 : List (α × Nat)) (x : α) :
    lookupC (l1 ++ l2) x =
      match lookupC l1 x with
      | some c => some c
      | none => lookupC l2 x := by
  induction l1 with
  | nil => simp [lookupC]
  | cons p rest ih =>
    by_cases h : p.1 = x <;> simp [lookupC, h, ih]

theorem setCount_fresh {α : Type} [DecidableEq α] (l : List (α × Nat)) (x : α) (v : Nat)
    (h : lookupC l x = none) : setCount l x v = l ++ [(x, v)] := by
  induction l with
  | nil => rfl
  | cons p rest ih =>
    simp only [lookupC] at h
    by_cases hp : p.1 = x
    · simp [hp] at h
    · obtain ⟨y, c⟩ := p
      simp only at hp
      simp only [setCount, hp, if_false, List.cons_append, List.cons.injEq, true_and]
      exact ih (by simpa [hp] using h)

theorem foldl_setCount_eq_map {α β : Type} [DecidableEq β] (κ : α → β) (f : α → Nat)
    (l : List α) (acc : List (β × Nat))
    (hfresh : ∀ a ∈ l, lookupC acc (κ a) = none)
    (hnd : (l.map κ).Nodup) :
    l.foldl (fun d a => setCount d (κ a) (f a)) acc
      = acc ++ l.map (fun a => (κ a, f a)) := by
  induction l generalizing acc with
  | nil => simp
  | cons a l ih =>
    simp only [List.foldl_cons, List.map_cons]
    rw [setCount_fresh acc (κ a) (f a) (hfresh a (List.mem_cons_self a l))]
    simp only [List.map_cons, List.nodup_cons] at hnd
    rw [ih (acc ++ [(κ a, f a)])]
    · simp
    · intro b hb
      rw [lookupC_append, hfresh b (List.mem_cons_of_mem a hb)]
      have hne : κ a ≠ κ b := fun he => hnd.1 (he ▸ List.mem_map_of_mem κ hb)
      simp [lookupC, hne]
    · exact hnd.2

/-- C5 counterexample: in the corpus `["그리고요"]`, the word-boundary count of
the Korean transition `그리고` over the corpus is 0 (shown both directly and by
the `additive` category aggregate), yet its entry in the ranked
`top_korean_transitions` list carries count 1: the ranked Korean counter omits
the `\b` anchors. -/
theorem korean_ranked_count_counterexample :
    countMatches [wbT (lits (str "그리고"))] (str "그리고요") = 0 ∧
      lookupC (analyze_transitions [str "그리고요"]).korean_by_category
          (str "additive") = some 0 ∧
      lookupC (analyze_transitions [str "그리고요"]).top_korean_transitions
          (str "그리고") = some 1 := by decide

/-- C5 amended: category aggregates count word-boundary occurrences of every
catalogue phrase (case-insensitively for English); the ranked English list
uses the same word-boundary, case-insensitive counts, but the ranked Korean
list counts bare (non-boundary) literal occurrences. -/
theorem transition_counts (ts : List Str) :
    (analyze_transitions ts).korean_by_category
        = KOREAN_TRANSITIONS.map (fun p =>
            (p.1, (p.2.map (fun w =>
              countMatches [wbT (lits w)] (joinSep (str " ") ts))).sum)) ∧
      (analyze_transitions ts).english_by_category
        = ENGLISH_TRANSITIONS.map (fun p =>
            (p.1, (p.2.map (fun w =>
              countMatches [wbT (litsCI w)] (joinSep (str " ") ts))).sum)) ∧
      (analyze_transitions ts).top_korean_transitions
        = mostCommon 10 (allKoreanTransitions.map (fun w =>
            (w, countMatches [lits w] (joinSep (str " ") ts)))) ∧
      (analyze_transitions ts).top_english_transitions
        = mostCommon 10 (allEnglishTransitions.map (fun w =>
            (w, countMatches [wbT (litsCI w)] (joinSep (str " ") ts)))) := by
  refine ⟨?_, ?_, ?_, ?_⟩
  · have h := foldl_setCount_eq_map (fun p : Str × List Str => p.1)
      (fun p => (p.2.map (fun w =>
        countMatches [wbT (lits w)] (joinSep (str " ") ts))).sum)
      KOREAN_TRANSITIONS [] (fun a _ => rfl) (by decide)
    simpa [analyze_transitions] using h
  · have h := foldl_setCount_eq_map (fun p : Str × List Str => p.1)
      (fun p => (p.2.map (fun w =>
        countMatches [wbT (litsCI w)] (joinSep (str " ") ts))).sum)
      ENGLISH_TRANSITIONS [] (fun a _ => rfl) (by decide)
    simpa [analyze_transitions] using h
  · have h := foldl_setCount_eq_map (fun w : Str => w)
      (fun w => countMatches [lits w] (joinSep (str " ") ts))
      allKoreanTransitions [] (fun a _ => rfl) (by decide)
    simp only [analyze_transitions]
    rw [h]
    simp
  · have h := foldl_setCount_eq_map (fun w : Str => w)
      (fun w => countMatches [wbT (litsCI w)] (joinSep (str " ") ts))
      allEnglishTransitions [] (fun a _ => rfl) (by decide)
    simp only [analyze_transitions]
    rw [h]
    simp
